import Mathlib

/-!
Verification development for the elastic-config-operator repository.

The definitions below are a shallow embedding of the Go sources:

* `internal/pools/elasticsearch.go`           — connection pool (`Pools` namespace);
* `internal/globals/elasticsearch.go` and the
  globals file of the elastic-config variant   — connection creation, cluster-key
  construction and dialect detection (`Globals` namespace);
* `internal/controller/indexstatemanagement/sync.go`   — `Ism` namespace;
* `internal/controller/clustersettings/sync.go`        — `Csettings` namespace;
* `internal/controller/snapshotlifecyclepolicy/sync.go`— `Slp` namespace;
* the index-template and snapshot-repository sync files — `Itpl` / `Srepo` namespaces;
* the per-kind controllers (`Reconcile`)               — `Controller` namespace.

Remote HTTP traffic is abstracted as an environment assigning a `CallResult`
(transport error or an HTTP response) to every outgoing call; JSON payload
bodies are opaque except for whether `json.Unmarshal` into an object succeeds,
which is the only property of a body the control flow inspects. Go map
iteration order is unspecified; the embedding iterates association lists in
list order, which is sound for the claims below since all of them are
order-independent.
-/

/-- The per-record lifecycle phase, with the values documented in the API types
("Pending", "Syncing", "Ready", "Error"). -/
inductive Phase where
  | pending
  | syncing
  | ready
  | error
deriving Repr, DecidableEq

/-- An HTTP response from the remote cluster: status code, status line and body,
the three pieces the sync code inspects. -/
structure EsResponse where
  statusCode : Nat
  status : String
  body : String
deriving Repr, DecidableEq

/-- Result of one remote call: a transport-level error (the Go `err != nil`
branch) or an HTTP response. -/
inductive CallResult where
  | transportErr (msg : String)
  | response (r : EsResponse)
deriving Repr, DecidableEq

/-- Secret reference `{name, namespace, key}` from the API types
(`SecretKeySelector`); an empty `nspace` models an omitted namespace. -/
structure SecretKeySelector where
  name : String
  nspace : String
  key : String
deriving Repr, DecidableEq

/-- The `ResourceSelector` of the API types: ECK auto-discovery fields
(name/namespace) plus the optional manual-connection fields; `clusterType` is
the dialect override used by `detectClusterType`. `namespace` is a Lean
keyword, so the field is called `nspace`. -/
structure ResourceSelector where
  name : String
  nspace : String
  endpoint : String
  username : String
  passwordSecretRef : Option SecretKeySelector
  caCertSecretRef : Option SecretKeySelector
  clusterType : String
deriving Repr, DecidableEq

/-- The status block shared by all six kinds (phase, message, target cluster,
applied resources, last sync time); `lastSyncTime` is an abstract instant. -/
structure Status where
  phase : Phase
  message : String
  targetCluster : String
  appliedResources : List String
  lastSyncTime : Option Nat
deriving Repr, DecidableEq

/-- An opaque JSON body from `Spec.Resources`: the sync code only branches on
whether `json.Unmarshal` into `map[string]interface` succeeds. -/
structure Body where
  parses : Bool
deriving Repr, DecidableEq

namespace Pools

/-- The `ElasticsearchConnection` struct of `internal/pools/elasticsearch.go`;
the `*elasticsearch.Client` handle is represented by an identity `clientId`. -/
structure Connection where
  endpoint : String
  username : String
  password : String
  caCert : String
  clientId : Nat
  clusterType : String
  version : String
deriving Repr, DecidableEq

/-- Lookup in the `Store` map (`ElasticsearchConnectionsStore.Get`). -/
def storeGet {α : Type} (store : List (String × α)) (key : String) : Option α :=
  match store with
  | [] => none
  | (k, v) :: rest => if k == key then some v else storeGet rest key

/-- Assignment into the `Store` map (`ElasticsearchConnectionsStore.Set`): a Go
map assignment overwrites the previous entry for the key. -/
def storeSet {α : Type} (store : List (String × α)) (key : String) (v : α) :
    List (String × α) :=
  (key, v) :: store.filter (fun p => !(p.1 == key))

/-- Number of entries a key has in the store representation. -/
def storeCountKey {α : Type} (store : List (String × α)) (key : String) : Nat :=
  (store.filter (fun p => p.1 == key)).length

end Pools

/-- Worker of `dedupKeys`, carrying the keys already seen. -/
def dedupAux (seen : List String) : List String → List String
  | [] => []
  | k :: rest =>
    if seen.contains k then dedupAux seen rest
    else k :: dedupAux (k :: seen) rest

/-- Keys of a desired map seen as a set: Go materialises the
`map[string]bool` set from the applied list, so duplicates collapse; the
embedding keeps the first occurrence of each key. -/
def dedupKeys (l : List String) : List String := dedupAux [] l

/-- Names in `applied` that are no longer desired (step 4 of every flat-kind
sync): iterate the applied set, keep those absent from the desired keys. -/
def namesToRemove (applied : List String) (desiredKeys : List String) : List String :=
  (dedupKeys applied).filter (fun n => !(desiredKeys.contains n))

/-- One remote call of a flat-kind sync attempt, recorded for trace reasoning. -/
inductive Call where
  | app (name : String)
  | del (name : String)
deriving Repr, DecidableEq

/-- Environment of one flat-kind sync attempt: the outcome of connection
resolution, the response the remote would give to each delete and each apply,
and the current time used by `metav1.Now()`. -/
structure FlatEnv where
  connect : Except String Pools.Connection
  deleteCall : String → CallResult
  applyCall : String → CallResult
  now : Nat

/-- A flat-kind record (`IndexStateManagement`, `SnapshotLifecyclePolicy`, ...):
CR metadata, selector, resync interval, desired name-to-body mapping, status. -/
structure FlatResource where
  nspace : String
  name : String
  selector : ResourceSelector
  syncInterval : String
  resources : List (String × Body)
  status : Status
deriving Repr

/-- Outcome of the removal loop of a sync attempt. -/
structure RemovalsOut where
  calls : List Call
  err : Option String
deriving Repr

/-- Outcome of the apply loop of a sync attempt. -/
structure AppliesOut where
  calls : List Call
  applied : List String
  err : Option String
deriving Repr

/-- Step 4 of a flat-kind sync: delete the no-longer-desired names one by one;
the first adapter error aborts the loop (the Go code returns immediately). -/
def runRemovals (adapter : String → Except String Unit) :
    List String → RemovalsOut
  | [] => { calls := [], err := none }
  | n :: rest =>
    match adapter n with
    | Except.error e => { calls := [Call.del n], err := some e }
    | Except.ok _ =>
      let r := runRemovals adapter rest
      { calls := Call.del n :: r.calls, err := r.err }

/-- Step 5 of a flat-kind sync: unmarshal and apply every desired body in turn,
collecting the applied names; a marshal/unmarshal failure or an adapter error
aborts the loop (the Go code returns immediately). An unmarshal failure issues
no remote call. -/
def runApplies (adapter : String → Except String Unit) :
    List (String × Body) → AppliesOut
  | [] => { calls := [], applied := [], err := none }
  | (n, b) :: rest =>
    if b.parses then
      match adapter n with
      | Except.error e => { calls := [Call.app n], applied := [], err := some e }
      | Except.ok _ =>
        let r := runApplies adapter rest
        { calls := Call.app n :: r.calls, applied := n :: r.applied, err := r.err }
    else
      { calls := [], applied := [], err := some ("failed to unmarshal policy " ++ n) }

namespace Ism

/-- Status helper `SetSyncing` of the indexstatemanagement status file. -/
def SetSyncing (st : Status) : Status :=
  { st with phase := Phase.syncing, message := "Synchronizing with OpenSearch" }

/-- Status helper `SetError` of the indexstatemanagement status file. -/
def SetError (st : Status) (msg : String) : Status :=
  { st with phase := Phase.error, message := msg }

/-- Status helper `SetReady` of the indexstatemanagement status file. -/
def SetReady (st : Status) (targetCluster : String) (applied : List String)
    (now : Nat) : Status :=
  { st with
      phase := Phase.ready
      message := "Successfully synced " ++ toString applied.length ++ " policies"
      targetCluster := targetCluster
      appliedResources := applied
      lastSyncTime := some now }

/-- The error message built at `sync.go` line 88 when the resolved connection
is an Elasticsearch (non-ISM) cluster. -/
def incompatibleClusterMsg : String :=
  "ISM (Index State Management) is only available in OpenSearch. Elasticsearch uses ILM (Index Lifecycle Management) instead. Please use the IndexLifecyclePolicy CRD for Elasticsearch clusters"

/-- `deleteISMPolicy` (`sync.go` lines 199-231): transport failure is an error;
HTTP 404 is swallowed as already-deleted; any other status at or above 400 is a
remote API error; otherwise success. -/
def deleteISMPolicy (call : CallResult) : Except String Unit :=
  match call with
  | CallResult.transportErr msg =>
    Except.error ("failed to delete ISM policy: " ++ msg)
  | CallResult.response res =>
    if res.statusCode == 404 then Except.ok ()
    else if res.statusCode ≥ 400 then
      Except.error ("OpenSearch API error: " ++ res.status ++ " - " ++ res.body)
    else Except.ok ()

/-- `applyISMPolicy` (`sync.go` lines 157-196): the body is wrapped in the ISM
envelope and PUT; transport failure or a status at or above 400 is an error. -/
def applyISMPolicy (call : CallResult) : Except String Unit :=
  match call with
  | CallResult.transportErr msg =>
    Except.error ("failed to apply ISM policy: " ++ msg)
  | CallResult.response res =>
    if res.statusCode ≥ 400 then
      Except.error ("OpenSearch API error: " ++ res.status ++ " - " ++ res.body)
    else Except.ok ()

/-- Result of one ISM sync attempt: the status after the attempt, the remote
calls issued, and the error returned to the controller. -/
structure SyncResult where
  status : Status
  calls : List Call
  result : Except String Unit
deriving Repr

/-- The Modified-event path of `IndexStateManagementReconciler.Sync`
(`sync.go` lines 36-154): set Syncing; resolve the connection (failure sets
Error with a wrapped message and aborts); reject Elasticsearch-dialect
connections (sets Error and aborts before any remote call); delete applied
names no longer desired (an adapter error aborts with no status write); apply
every desired body (unmarshal failure or adapter error aborts with no status
write); on full success record the applied names with `SetReady`. -/
def Sync (env : FlatEnv) (res : FlatResource) : SyncResult :=
  let selNs := if res.selector.nspace == "" then res.nspace else res.selector.nspace
  let st1 := SetSyncing res.status
  match env.connect with
  | Except.error e =>
    { status := SetError st1 ("failed to connect to OpenSearch: " ++ e)
      calls := []
      result := Except.error e }
  | Except.ok conn =>
    if conn.clusterType == "elasticsearch" then
      { status := SetError st1 incompatibleClusterMsg
        calls := []
        result := Except.error incompatibleClusterMsg }
    else
      let desiredKeys := res.resources.map Prod.fst
      let rem := runRemovals (fun n => deleteISMPolicy (env.deleteCall n))
        (namesToRemove res.status.appliedResources desiredKeys)
      match rem.err with
      | some e => { status := st1, calls := rem.calls, result := Except.error e }
      | none =>
        let app := runApplies (fun n => applyISMPolicy (env.applyCall n)) res.resources
        match app.err with
        | some e =>
          { status := st1, calls := rem.calls ++ app.calls, result := Except.error e }
        | none =>
          { status := SetReady st1 (selNs ++ "/" ++ res.selector.name) app.applied env.now
            calls := rem.calls ++ app.calls
            result := Except.ok () }

end Ism

namespace Slp

/-- Status helper of the snapshotlifecyclepolicy kind. Modelled from the spec:
the SLP status-helper file is not among the provided sources; section 4.4 step 1
and the sibling kinds (part_003, part_004) fix the shape: phase Syncing with a
synchronizing message. -/
def SetSyncing (st : Status) : Status :=
  { st with phase := Phase.syncing, message := "Synchronizing with Elasticsearch" }

/-- Status helper of the snapshotlifecyclepolicy kind. Modelled from the spec:
the SLP status-helper file is not among the provided sources; every error is
written into the message field with phase Error, as in the sibling kinds. -/
def SetError (st : Status) (msg : String) : Status :=
  { st with phase := Phase.error, message := msg }

/-- Status helper of the snapshotlifecyclepolicy kind. Modelled from the spec:
the SLP status-helper file is not among the provided sources; `SetReady` is
called without a target-cluster argument in `sync.go` line 139, so that field
is left unchanged; phase Ready, message summarizing the count applied, applied
list and last sync time as in the sibling kinds. -/
def SetReady (st : Status) (applied : List String) (now : Nat) : Status :=
  { st with
      phase := Phase.ready
      message := "Successfully synced " ++ toString applied.length ++ " policies"
      appliedResources := applied
      lastSyncTime := some now }

/-- `deleteSnapshotLifecyclePolicy` (`sync.go` lines 181-207): transport
failure is an error; on an error response (`IsError`, status above 299) HTTP
404 is swallowed as already-deleted and anything else is a remote API error. -/
def deleteSnapshotLifecyclePolicy (call : CallResult) : Except String Unit :=
  match call with
  | CallResult.transportErr msg =>
    Except.error ("failed to delete snapshot lifecycle policy: " ++ msg)
  | CallResult.response res =>
    if res.statusCode > 299 then
      if res.statusCode == 404 then Except.ok ()
      else Except.error ("elasticsearch API error: " ++ res.status ++ " - " ++ res.body)
    else Except.ok ()

/-- `applySnapshotLifecyclePolicy` (`sync.go` lines 150-178): PUT via the SLM
API; transport failure or an error response is an error. -/
def applySnapshotLifecyclePolicy (call : CallResult) : Except String Unit :=
  match call with
  | CallResult.transportErr msg =>
    Except.error ("failed to apply snapshot lifecycle policy: " ++ msg)
  | CallResult.response res =>
    if res.statusCode > 299 then
      Except.error ("elasticsearch API error: " ++ res.status ++ " - " ++ res.body)
    else Except.ok ()

/-- Result of one SLP sync attempt. -/
structure SyncResult where
  status : Status
  calls : List Call
  result : Except String Unit
deriving Repr

/-- The Modified-event path of `SnapshotLifecyclePolicyReconciler.Sync`
(`sync.go` lines 38-147): identical to the ISM kind except that there is no
dialect check and the ready-status helper takes no target cluster; adapter
delete/apply failures and unmarshal failures return the error without any
status write. -/
def Sync (env : FlatEnv) (res : FlatResource) : SyncResult :=
  let st1 := SetSyncing res.status
  match env.connect with
  | Except.error e =>
    { status := SetError st1 ("failed to connect to Elasticsearch: " ++ e)
      calls := []
      result := Except.error e }
  | Except.ok _ =>
    let desiredKeys := res.resources.map Prod.fst
    let rem := runRemovals (fun n => deleteSnapshotLifecyclePolicy (env.deleteCall n))
      (namesToRemove res.status.appliedResources desiredKeys)
    match rem.err with
    | some e => { status := st1, calls := rem.calls, result := Except.error e }
    | none =>
      let app := runApplies (fun n => applySnapshotLifecyclePolicy (env.applyCall n))
        res.resources
      match app.err with
      | some e =>
        { status := st1, calls := rem.calls ++ app.calls, result := Except.error e }
      | none =>
        { status := SetReady st1 app.applied env.now
          calls := rem.calls ++ app.calls
          result := Except.ok () }

end Slp

namespace Itpl

/-- `deleteIndexTemplate` of the indextemplate sync file: transport failure is
an error; on an error response HTTP 404 is swallowed as already-deleted. -/
def deleteIndexTemplate (call : CallResult) : Except String Unit :=
  match call with
  | CallResult.transportErr msg =>
    Except.error ("failed to delete index template: " ++ msg)
  | CallResult.response res =>
    if res.statusCode > 299 then
      if res.statusCode == 404 then Except.ok ()
      else Except.error ("elasticsearch API error: " ++ res.status ++ " - " ++ res.body)
    else Except.ok ()

end Itpl

namespace Srepo

/-- `deleteSnapshotRepository` of the snapshotrepository sync file: transport
failure is an error; on an error response HTTP 404 is swallowed as
already-deleted. -/
def deleteSnapshotRepository (call : CallResult) : Except String Unit :=
  match call with
  | CallResult.transportErr msg =>
    Except.error ("failed to delete snapshot repository: " ++ msg)
  | CallResult.response res =>
    if res.statusCode > 299 then
      if res.statusCode == 404 then Except.ok ()
      else Except.error ("elasticsearch API error: " ++ res.status ++ " - " ++ res.body)
    else Except.ok ()

end Srepo

namespace Ilm

/-- Delete operation of the index-lifecycle-policy kind. Modelled from the
spec: the indexlifecyclepolicy sync file is not among the provided sources;
section 4.5 requires a remove-by-name call where a not-found response is
treated as success, exactly as in the sibling flat kinds. -/
def deleteILMPolicy (call : CallResult) : Except String Unit :=
  match call with
  | CallResult.transportErr msg =>
    Except.error ("failed to delete index lifecycle policy: " ++ msg)
  | CallResult.response res =>
    if res.statusCode > 299 then
      if res.statusCode == 404 then Except.ok ()
      else Except.error ("elasticsearch API error: " ++ res.status ++ " - " ++ res.body)
    else Except.ok ()

end Ilm

namespace Csettings

/-- A category body from `Spec.Resources` of the ClusterSettings kind:
`json.Unmarshal` either rejects it (`none`) or yields a settings object whose
individual setting paths are the listed keys (the setting values are opaque to
the control flow, which only ever forwards them whole). -/
structure CatBody where
  parsed : Option (List String)
deriving Repr, DecidableEq

/-- A ClusterSettings record. -/
structure Resource where
  nspace : String
  name : String
  selector : ResourceSelector
  syncInterval : String
  resources : List (String × CatBody)
  status : Status
deriving Repr

/-- Environment of one ClusterSettings sync attempt: connection resolution
outcome, the remote response to the reset call and to the apply call of each
category, and the current time. -/
structure Env where
  connect : Except String Pools.Connection
  resetCall : String → CallResult
  applyCall : String → CallResult
  now : Nat

/-- Status helper of the clustersettings kind. Modelled from the spec: the
clustersettings status-helper file is not among the provided sources; shape as
in the sibling kinds (part_003, part_004). -/
def SetSyncing (st : Status) : Status :=
  { st with phase := Phase.syncing, message := "Synchronizing with Elasticsearch" }

/-- Status helper of the clustersettings kind. Modelled from the spec: phase
Error with the error message, as in the sibling kinds. -/
def SetError (st : Status) (msg : String) : Status :=
  { st with phase := Phase.error, message := msg }

/-- Status helper of the clustersettings kind. Modelled from the spec: phase
Ready, a message summarizing the count applied, the applied list and the last
sync time, as in the sibling kinds. -/
def SetReady (st : Status) (targetCluster : String) (applied : List String)
    (now : Nat) : Status :=
  { st with
      phase := Phase.ready
      message := "Successfully synced " ++ toString applied.length ++ " settings"
      targetCluster := targetCluster
      appliedResources := applied
      lastSyncTime := some now }

/-- `applyClusterSettings` (`sync.go` lines 205-237): PUT the whole category
object; transport failure or an error response is an error. -/
def applyClusterSettings (call : CallResult) : Except String Unit :=
  match call with
  | CallResult.transportErr msg =>
    Except.error ("failed to apply cluster settings: " ++ msg)
  | CallResult.response res =>
    if res.statusCode > 299 then
      Except.error ("elasticsearch API error: " ++ res.status ++ " - " ++ res.body)
    else Except.ok ()

/-- `resetClusterSettings` (`sync.go` lines 240-289): PUT the category object
with the removed paths set to null; on an error response HTTP 404 is treated
as already-reset; transport failure or any other error response is an error. -/
def resetClusterSettings (call : CallResult) : Except String Unit :=
  match call with
  | CallResult.transportErr msg =>
    Except.error ("failed to reset cluster settings: " ++ msg)
  | CallResult.response res =>
    if res.statusCode > 299 then
      if res.statusCode == 404 then Except.ok ()
      else Except.error ("elasticsearch API error: " ++ res.status ++ " - " ++ res.body)
    else Except.ok ()

/-- Index of the first dot of a string, scanning as the Go loop at
`sync.go` lines 145-151 does: `dotIndex` starts at 0 and is only set when a
dot is found, so a dot-free key and a key starting with a dot both yield 0. -/
def firstDotAux : List Char → Nat → Nat
  | [], _ => 0
  | c :: rest, i => if c == '.' then i else firstDotAux rest (i + 1)

/-- Split a tracked key `category.setting.path` at its first dot; keys whose
first dot is at index 0 (including dot-free keys) are silently skipped by the
Go code (`if dotIndex > 0`). -/
def splitSetting (s : String) : Option (String × String) :=
  let i := firstDotAux s.data 0
  if i > 0 then some (String.mk (s.data.take i), String.mk (s.data.drop (i + 1)))
  else none

/-- Append a setting key to its category group, preserving first-seen category
order (the embedding's stand-in for Go map grouping). -/
def addToGroup : List (String × List String) → String → String →
    List (String × List String)
  | [], c, sk => [(c, [sk])]
  | (c2, l) :: rest, c, sk =>
    if c2 == c then (c2, l ++ [sk]) :: rest
    else (c2, l) :: addToGroup rest c sk

/-- Group a list of flattened `category.settingPath` keys by category
(`settingsToResetByCategory` / `settingsToReset` construction). -/
def groupByCategory (keys : List String) : List (String × List String) :=
  keys.foldl
    (fun acc k =>
      match splitSetting k with
      | none => acc
      | some (c, sk) => addToGroup acc c sk)
    []

/-- Step 3 of the ClusterSettings sync (`sync.go` lines 112-137): unmarshal
every category body; the first failure aborts the attempt (with `SetError`). -/
def parseAll : List (String × CatBody) → Except String (List (String × List String))
  | [] => Except.ok []
  | (c, b) :: rest =>
    match b.parsed with
    | none => Except.error ("failed to unmarshal settings for category " ++ c)
    | some keys =>
      match parseAll rest with
      | Except.error e => Except.error e
      | Except.ok r => Except.ok ((c, keys) :: r)

/-- Flattened `category.settingPath` identifiers of parsed categories. -/
def flattenCats (cats : List (String × List String)) : List String :=
  cats.flatMap (fun p => p.2.map (fun k => p.1 ++ "." ++ k))

/-- Flattened identifiers straight from the desired mapping (skipping bodies
that do not parse; on a successful attempt every body parses). -/
def flattenRes (l : List (String × CatBody)) : List String :=
  l.flatMap (fun p => (p.2.parsed.getD []).map (fun k => p.1 ++ "." ++ k))

/-- Reset loop of step 4 (`sync.go` lines 161-169): reset each category of
no-longer-desired settings; the first error aborts with a wrapped message. -/
def runResets (env : Env) : List (String × List String) → Option String
  | [] => none
  | (c, _) :: rest =>
    match resetClusterSettings (env.resetCall c) with
    | Except.error e => some ("failed to reset cluster settings: " ++ e)
    | Except.ok _ => runResets env rest

/-- Apply loop of step 5 (`sync.go` lines 171-190): apply each category whole,
then track each `category.settingPath` applied; the first error aborts with a
wrapped message. -/
def runAppliesCs (env : Env) : List (String × List String) → List String × Option String
  | [] => ([], none)
  | (c, keys) :: rest =>
    match applyClusterSettings (env.applyCall c) with
    | Except.error e =>
      ([], some ("failed to apply cluster settings for category " ++ c ++ ": " ++ e))
    | Except.ok _ =>
      let r := runAppliesCs env rest
      (keys.map (fun k => c ++ "." ++ k) ++ r.1, r.2)

/-- Result of one ClusterSettings sync attempt. In the error cases the Go code
returns the unwrapped underlying error while the status message carries the
wrapped text; the embedding carries the wrapped text in both places, which is
the only part any claim inspects. -/
structure SyncResultCs where
  status : Status
  result : Except String Unit
deriving Repr

/-- The Modified-event path of `ClusterSettingsReconciler.Sync` (`sync.go`
lines 36-202): set Syncing; resolve the connection (failure sets Error);
unmarshal every category (failure sets Error); reset individual settings no
longer desired, grouped by category (failure sets Error); apply every desired
category (failure sets Error); on full success record the flattened
`category.settingPath` identifiers with `SetReady`. -/
def Sync (env : Env) (res : Resource) : SyncResultCs :=
  let selNs := if res.selector.nspace == "" then res.nspace else res.selector.nspace
  let st1 := SetSyncing res.status
  match env.connect with
  | Except.error e =>
    { status := SetError st1 ("failed to connect to Elasticsearch: " ++ e)
      result := Except.error e }
  | Except.ok _ =>
    match parseAll res.resources with
    | Except.error e => { status := SetError st1 e, result := Except.error e }
    | Except.ok cats =>
      let desiredFlat := flattenCats cats
      let toReset := groupByCategory
        ((dedupKeys res.status.appliedResources).filter
          (fun k => !(desiredFlat.contains k)))
      match runResets env toReset with
      | some e => { status := SetError st1 e, result := Except.error e }
      | none =>
        let app := runAppliesCs env cats
        match app.2 with
        | some e => { status := SetError st1 e, result := Except.error e }
        | none =>
          { status := SetReady st1 (selNs ++ "/" ++ res.selector.name) app.1 env.now
            result := Except.ok () }

/-- Reset loop of the Deleted-event path (`sync.go` lines 77-85), over the
categories recovered from `Status.AppliedResources`. -/
def runResetsDeleted (env : Env) : List (String × List String) → Except String Unit
  | [] => Except.ok ()
  | (c, _) :: rest =>
    match resetClusterSettings (env.resetCall c) with
    | Except.error e => Except.error e
    | Except.ok _ => runResetsDeleted env rest

/-- The Deleted-event path of `ClusterSettingsReconciler.Sync` (`sync.go`
lines 48-88): resolve the connection (failure returns the error), group the
tracked `category.settingPath` keys by category and reset them; the first
reset error aborts and is returned to the caller. -/
def SyncDeleted (env : Env) (res : Resource) : Except String Unit :=
  match env.connect with
  | Except.error e => Except.error e
  | Except.ok _ =>
    runResetsDeleted env (groupByCategory res.status.appliedResources)

/-- Outcome of the deletion branch of `Reconcile`. -/
structure DeletionOut where
  finalizerRemoved : Bool
  err : Option String
deriving Repr, DecidableEq

/-- The deletion branch of `ClusterSettingsReconciler.Reconcile`
(`controller.go` lines 74-91), identical in every kind controller: the result
of the deletion sync is assigned to `err` but never tested — the finalizer is
removed unconditionally right after, the assignment is overwritten by the
finalizer-update call, and the branch finally returns `err = nil`. -/
def ReconcileDeletion (syncDeleted : Except String Unit) (hasFinalizer : Bool)
    (updateErr : Option String) : DeletionOut :=
  if hasFinalizer then
    let errFromSync : Option String :=
      match syncDeleted with
      | Except.error e => some e
      | Except.ok _ => none
    let errFromUpdate := updateErr
    let _ := errFromSync
    let _ := errFromUpdate
    { finalizerRemoved := true, err := none }
  else
    { finalizerRemoved := false, err := none }

end Csettings

namespace Globals

/-- Cluster-key construction, identical in every kind sync (for example
`indexstatemanagement/sync.go` lines 41-46): the selector namespace is
defaulted to the CR namespace when empty and the key is
`namespace_name` — no other selector field enters the key. -/
def clusterKey (crNamespace : String) (sel : ResourceSelector) : String :=
  let ns := if sel.nspace == "" then crNamespace else sel.nspace
  ns ++ "_" ++ sel.name

/-- `GetOrCreateElasticsearchConnection` (globals file, lines 22-186), with
the whole credential-resolution, TLS and probing pipeline abstracted as
`create`: a pool hit returns the cached connection unchanged, ignoring every
selector field; a miss runs `create` and stores the result under the key. -/
def GetOrCreateElasticsearchConnection
    (pool : List (String × Pools.Connection)) (clusterKey : String)
    (sel : ResourceSelector)
    (create : ResourceSelector → Except String Pools.Connection) :
    Except String (Pools.Connection × List (String × Pools.Connection)) :=
  match Pools.storeGet pool clusterKey with
  | some connection => Except.ok (connection, pool)
  | none =>
    match create sel with
    | Except.error e => Except.error e
    | Except.ok connection =>
      Except.ok (connection, Pools.storeSet pool clusterKey connection)

/-- The parsed cluster-info body: OpenSearch includes
`version.distribution = "opensearch"`; a missing field unmarshals to the empty
string. -/
structure InfoBody where
  distribution : String
  number : String
deriving Repr, DecidableEq

/-- Environment of one dialect detection: the outcome of the cluster-info call
and of unmarshalling its body. -/
structure DetectEnv where
  infoCall : CallResult
  parsed : Option InfoBody
deriving Repr

/-- `detectClusterType` (globals file of the elastic-config variant, lines
188-262). The first component counts the cluster-info calls issued. With an
override the call is still performed, solely to extract the version, and the
override is returned verbatim as the dialect. Without an override the dialect
is `opensearch` exactly when the distribution field equals `"opensearch"`,
else `elasticsearch`. Transport failure, an error response or an unparseable
body is an error in both branches. -/
def detectClusterType (env : DetectEnv) (clusterTypeOverride : String) :
    Nat × Except String (String × String) :=
  if clusterTypeOverride != "" then
    match env.infoCall with
    | CallResult.transportErr msg =>
      (1, Except.error ("failed to get cluster info: " ++ msg))
    | CallResult.response r =>
      if r.statusCode > 299 then
        (1, Except.error ("cluster info request failed: " ++ r.status))
      else
        match env.parsed with
        | none => (1, Except.error "failed to parse cluster info")
        | some info => (1, Except.ok (clusterTypeOverride, info.number))
  else
    match env.infoCall with
    | CallResult.transportErr msg =>
      (1, Except.error ("failed to get cluster info: " ++ msg))
    | CallResult.response r =>
      if r.statusCode > 299 then
        (1, Except.error ("cluster info request failed: " ++ r.status))
      else
        match env.parsed with
        | none => (1, Except.error "failed to parse cluster info")
        | some info =>
          let clusterType :=
            if info.distribution == "opensearch" then "opensearch"
            else "elasticsearch"
          (1, Except.ok (clusterType, info.number))

end Globals

namespace Registry

/-- One worker executing `GetOrCreateElasticsearchConnection` for a fixed key:
program counter 0 = before the pool `Get`, 1 = before constructing the
connection (resolve credentials, build client, probe), 2 = before the pool
`Set`, 3 = finished; `obj` is the identity of the connection it constructed
and `ret` the identity it returned. -/
structure Thread where
  pc : Nat
  obj : Nat
  ret : Option Nat
deriving Repr, DecidableEq

/-- The shared state: the pool map (connection identities), a fresh-identity
counter, and the number of connection constructions performed. -/
structure Shared where
  store : List (String × Nat)
  nextId : Nat
  built : Nat
deriving Repr, DecidableEq

/-- One atomic step of a worker. The pool `Get` (shared lock) and `Set`
(exclusive lock) are atomic; construction happens between them with no lock
held and no re-check of the pool, exactly as in the globals file: `Get` at the
top, unconditional `Set` at the bottom. -/
def threadStep (key : String) (sh : Shared) (th : Thread) : Thread × Shared :=
  if th.pc == 0 then
    match Pools.storeGet sh.store key with
    | some c => ({ th with pc := 3, ret := some c }, sh)
    | none => ({ th with pc := 1 }, sh)
  else if th.pc == 1 then
    ({ th with pc := 2, obj := sh.nextId },
     { sh with nextId := sh.nextId + 1, built := sh.built + 1 })
  else if th.pc == 2 then
    ({ th with pc := 3, ret := some th.obj },
     { sh with store := Pools.storeSet sh.store key th.obj })
  else (th, sh)

/-- Two workers requesting the same key concurrently. -/
structure Sys where
  shared : Shared
  t1 : Thread
  t2 : Thread
deriving Repr, DecidableEq

/-- Scheduler step: `true` steps the first worker, `false` the second. -/
def sysStep (key : String) (s : Sys) (who : Bool) : Sys :=
  if who then
    let r := threadStep key s.shared s.t1
    { shared := r.2, t1 := r.1, t2 := s.t2 }
  else
    let r := threadStep key s.shared s.t2
    { shared := r.2, t1 := s.t1, t2 := r.1 }

/-- Initial state: empty pool, both workers about to call the pool `Get`. -/
def initSys : Sys :=
  { shared := { store := [], nextId := 0, built := 0 }
    t1 := { pc := 0, obj := 0, ret := none }
    t2 := { pc := 0, obj := 0, ret := none } }

/-- Run the two workers under a given interleaving. -/
def run (key : String) (sched : List Bool) : Sys :=
  sched.foldl (sysStep key) initSys

end Registry

namespace Controller

/-- Modelled from the spec: the constant `internal/controller.DefaultSyncInterval`
lives in a controller-constants file that is not among the provided sources;
the spec (section 4.4 step 7) and the API doc comments fix the default resync
interval at ten seconds, as a Go duration string. -/
def DefaultSyncInterval : String := "10s"

/-- Nanoseconds per Go duration unit. -/
def unitNanos (u : String) : Option Nat :=
  if u == "ns" then some 1
  else if u == "us" then some 1000
  else if u == "ms" then some 1000000
  else if u == "s" then some 1000000000
  else if u == "m" then some 60000000000
  else if u == "h" then some 3600000000000
  else none

/-- Decimal value of a digit run. -/
def digitsVal (cs : List Char) : Nat :=
  cs.foldl (fun a c => a * 10 + (c.toNat - 48)) 0

/-- Component loop of the Go duration syntax, fuelled by the input length:
each component is a digit run followed by a unit; an empty digit run or an
unknown unit is a parse failure. -/
def parseDurGo : Nat → List Char → Option Nat
  | _, [] => some 0
  | 0, _ :: _ => none
  | Nat.succ fuel, c :: cs =>
    let digits := (c :: cs).takeWhile Char.isDigit
    let rest1 := (c :: cs).dropWhile Char.isDigit
    if digits.isEmpty then none
    else
      let unit := rest1.takeWhile (fun x => !x.isDigit)
      let rest2 := rest1.dropWhile (fun x => !x.isDigit)
      match unitNanos (String.mk unit) with
      | none => none
      | some m =>
        match parseDurGo fuel rest2 with
        | none => none
        | some v => some (digitsVal digits * m + v)

/-- Model of Go `time.ParseDuration`, restricted to unsigned durations with
integer components (the forms the repository documents, such as "10s", "30s",
"5m", "1h"); `"0"` is the unit-free zero Go accepts, the empty string and any
string with a malformed component are rejected. Result in nanoseconds. -/
def ParseDuration (s : String) : Option Nat :=
  if s == "0" then some 0
  else if s.isEmpty then none
  else parseDurGo s.length s.data

/-- Outcome of the scheduling-plus-sync tail of a kind controller. -/
structure ReconcileOut where
  requeueAfter : Option Nat
  err : Option String
  syncAttempted : Bool
  status : Status
deriving Repr

/-- Steps 6-8 of the ISM controller `Reconcile` (part_005 lines 109-134,
identical in every kind controller): default the interval only when it is the
empty string; an unparseable interval logs and returns the parse error with a
zero result — no requeue-after is scheduled, the sync never runs and the
status is left untouched; otherwise requeue after the parsed interval and run
the sync. -/
def ReconcileSchedule (env : FlatEnv) (res : FlatResource) : ReconcileOut :=
  let syncInterval := if res.syncInterval == "" then DefaultSyncInterval
    else res.syncInterval
  match ParseDuration syncInterval with
  | none =>
    { requeueAfter := none
      err := some ("time: invalid duration " ++ syncInterval)
      syncAttempted := false
      status := res.status }
  | some d =>
    let s := Ism.Sync env res
    match s.result with
    | Except.error e =>
      { requeueAfter := some d, err := some e, syncAttempted := true, status := s.status }
    | Except.ok _ =>
      { requeueAfter := some d, err := none, syncAttempted := true, status := s.status }

end Controller

namespace Fixtures

/-- A healthy OpenSearch connection fixture. -/
def connOs : Pools.Connection :=
  { endpoint := "https://demo-es-http.default.svc:9200"
    username := "elastic"
    password := "pw"
    caCert := "PEM"
    clientId := 0
    clusterType := "opensearch"
    version := "2.11.0" }

/-- A healthy Elasticsearch connection fixture. -/
def connEs : Pools.Connection :=
  { connOs with clusterType := "elasticsearch", version := "8.11.0", clientId := 1 }

/-- A selector fixture in ECK auto-discovery form. -/
def selAuto : ResourceSelector :=
  { name := "demo"
    nspace := "default"
    endpoint := ""
    username := ""
    passwordSecretRef := none
    caCertSecretRef := none
    clusterType := "" }

/-- A status fixture with one tracked name. -/
def stTracked : Status :=
  { phase := Phase.ready
    message := "Successfully synced 1 policies"
    targetCluster := "default/demo"
    appliedResources := ["a"]
    lastSyncTime := some 1 }

/-- A remote that answers every call with HTTP 500. -/
def call500 : CallResult :=
  CallResult.response { statusCode := 500, status := "500 Internal Server Error", body := "boom" }

/-- A remote that answers every call with HTTP 200. -/
def call200 : CallResult :=
  CallResult.response { statusCode := 200, status := "200 OK", body := "" }

/-- ISM environment whose adapter delete/apply calls fail with HTTP 500. -/
def ismEnvAdapterFail : FlatEnv :=
  { connect := Except.ok connOs
    deleteCall := fun _ => call500
    applyCall := fun _ => call500
    now := 7 }

/-- ISM environment where everything succeeds. -/
def ismEnvOk : FlatEnv :=
  { connect := Except.ok connOs
    deleteCall := fun _ => call200
    applyCall := fun _ => call200
    now := 7 }

/-- ISM environment whose connection resolution fails. -/
def ismEnvConnFail : FlatEnv :=
  { ismEnvOk with connect := Except.error "failed to get ECK cluster: not found" }

/-- ISM environment resolving to an Elasticsearch-dialect connection. -/
def ismEnvWrongDialect : FlatEnv :=
  { ismEnvOk with connect := Except.ok connEs }

/-- An ISM record tracking one applied name and desiring nothing, so the next
sync must delete the tracked name. -/
def ismResRemoveOnly : FlatResource :=
  { nspace := "default"
    name := "policies"
    selector := selAuto
    syncInterval := ""
    resources := []
    status := stTracked }

/-- An ISM record desiring two policies with nothing applied yet. -/
def ismResTwo : FlatResource :=
  { ismResRemoveOnly with
      resources := [("a", { parses := true }), ("b", { parses := true })]
      status := { stTracked with appliedResources := [] } }

/-- ClusterSettings environment where everything succeeds. -/
def csEnvOk : Csettings.Env :=
  { connect := Except.ok connEs
    resetCall := fun _ => call200
    applyCall := fun _ => call200
    now := 9 }

/-- ClusterSettings environment whose reset calls fail with HTTP 500. -/
def csEnvResetFail : Csettings.Env :=
  { csEnvOk with resetCall := fun _ => call500 }

/-- A ClusterSettings record desiring one category of two settings. -/
def csResOneCat : Csettings.Resource :=
  { nspace := "default"
    name := "settings"
    selector := selAuto
    syncInterval := ""
    resources := [("persistent", { parsed := some ["cluster.routing.allocation.enable", "indices.recovery.max_bytes_per_sec"] })]
    status := { stTracked with appliedResources := [] } }

/-- A ClusterSettings record marked for deletion with one tracked setting. -/
def csResTracked : Csettings.Resource :=
  { csResOneCat with
      resources := []
      status := { stTracked with appliedResources := ["persistent.cluster.routing.allocation.enable"] } }

/-- SLP environment whose apply calls fail with HTTP 500. -/
def slpEnvApplyFail : FlatEnv :=
  { connect := Except.ok connEs
    deleteCall := fun _ => call200
    applyCall := fun _ => call500
    now := 3 }

/-- An SLP record desiring one policy. -/
def slpResOne : FlatResource :=
  { nspace := "default"
    name := "slm"
    selector := selAuto
    syncInterval := ""
    resources := [("daily", { parses := true })]
    status := { stTracked with appliedResources := [] } }

/-- A selector in manual form pointing at one endpoint. -/
def selManualA : ResourceSelector :=
  { name := "demo"
    nspace := "default"
    endpoint := "https://es-a.example.com:9200"
    username := "admin"
    passwordSecretRef := some { name := "creds-a", nspace := "default", key := "password" }
    caCertSecretRef := none
    clusterType := "" }

/-- The same selector with a different endpoint and different credentials. -/
def selManualB : ResourceSelector :=
  { selManualA with
      endpoint := "https://es-b.example.com:9200"
      username := "other"
      passwordSecretRef := some { name := "creds-b", nspace := "default", key := "password" } }

/-- A pool fixture holding one cached connection under the fixture key. -/
def poolWithDemo : List (String × Pools.Connection) :=
  [("default_demo", connOs)]

/-- A record whose interval is not a duration Go accepts. -/
def ismResBadInterval : FlatResource :=
  { ismResRemoveOnly with
      syncInterval := "tenseconds"
      status := { stTracked with phase := Phase.pending } }

/-- A detection environment: healthy cluster-info call whose body carries the
OpenSearch distribution marker. -/
def detectEnvOs : Globals.DetectEnv :=
  { infoCall := CallResult.response { statusCode := 200, status := "200 OK", body := "info" }
    parsed := some { distribution := "opensearch", number := "2.11.0" } }

/-- A record with a well-formed thirty-second resync interval. -/
def ismResInterval30s : FlatResource :=
  { ismResRemoveOnly with syncInterval := "30s" }

end Fixtures

/-- A fully successful apply loop records exactly the desired names, in
order. -/
theorem runApplies_ok_applied (adapter : String → Except String Unit)
    (l : List (String × Body)) (h : (runApplies adapter l).err = none) :
    (runApplies adapter l).applied = l.map Prod.fst := by
  induction l with
  | nil => rfl
  | cons hd tl ih =>
    obtain ⟨n, b⟩ := hd
    simp only [runApplies] at h ⊢
    cases hb : b.parses with
    | false => simp [hb] at h
    | true =>
      simp only [hb, eq_self_iff_true, if_true] at h ⊢
      cases ha : adapter n with
      | error e => simp [ha] at h
      | ok u =>
        simp only [ha] at h
        simp at h ⊢
        exact ih h

/-- Every ISM sync attempt either fails — leaving the applied list untouched
and the phase at Syncing or Error — or succeeds, ending Ready with the
apply-loop names recorded, the sync time stamped and a count message. -/
theorem ism_sync_shape (env : FlatEnv) (res : FlatResource) :
    ((Ism.Sync env res).status.appliedResources = res.status.appliedResources ∧
      ((Ism.Sync env res).status.phase = Phase.syncing ∨
        (Ism.Sync env res).status.phase = Phase.error) ∧
      ∃ e, (Ism.Sync env res).result = Except.error e) ∨
    ((Ism.Sync env res).result = Except.ok () ∧
      (runApplies (fun n => Ism.applyISMPolicy (env.applyCall n)) res.resources).err
        = none ∧
      (Ism.Sync env res).status.phase = Phase.ready ∧
      (Ism.Sync env res).status.appliedResources =
        (runApplies (fun n => Ism.applyISMPolicy (env.applyCall n)) res.resources).applied ∧
      (Ism.Sync env res).status.lastSyncTime = some env.now ∧
      (Ism.Sync env res).status.message =
        "Successfully synced " ++
          toString (runApplies (fun n => Ism.applyISMPolicy (env.applyCall n))
            res.resources).applied.length ++ " policies") := by
  simp only [Ism.Sync]
  split
  · left; exact ⟨rfl, Or.inr rfl, _, rfl⟩
  · split
    · left; exact ⟨rfl, Or.inr rfl, _, rfl⟩
    · split
      · left; exact ⟨rfl, Or.inl rfl, _, rfl⟩
      · split
        · left; exact ⟨rfl, Or.inl rfl, _, rfl⟩
        · rename_i ha
          right
          exact ⟨rfl, ha, rfl, rfl, rfl, rfl⟩

/-- Every SLP sync attempt either fails — leaving the applied list untouched
and the phase at Syncing or Error — or succeeds, ending Ready with the
apply-loop names recorded. -/
theorem slp_sync_shape (env : FlatEnv) (res : FlatResource) :
    ((Slp.Sync env res).status.appliedResources = res.status.appliedResources ∧
      ((Slp.Sync env res).status.phase = Phase.syncing ∨
        (Slp.Sync env res).status.phase = Phase.error) ∧
      ∃ e, (Slp.Sync env res).result = Except.error e) ∨
    ((Slp.Sync env res).result = Except.ok () ∧
      (runApplies (fun n => Slp.applySnapshotLifecyclePolicy (env.applyCall n))
        res.resources).err = none ∧
      (Slp.Sync env res).status.phase = Phase.ready ∧
      (Slp.Sync env res).status.appliedResources =
        (runApplies (fun n => Slp.applySnapshotLifecyclePolicy (env.applyCall n))
          res.resources).applied ∧
      (Slp.Sync env res).status.lastSyncTime = some env.now) := by
  simp only [Slp.Sync]
  split
  · left; exact ⟨rfl, Or.inr rfl, _, rfl⟩
  · split
    · left; exact ⟨rfl, Or.inl rfl, _, rfl⟩
    · split
      · left; exact ⟨rfl, Or.inl rfl, _, rfl⟩
      · rename_i ha
        right
        exact ⟨rfl, ha, rfl, rfl, rfl⟩

/-- A fully successful ClusterSettings apply loop records exactly the
flattened identifiers of the categories it walked, in order. -/
theorem runAppliesCs_ok_applied (env : Csettings.Env)
    (cats : List (String × List String))
    (h : (Csettings.runAppliesCs env cats).2 = none) :
    (Csettings.runAppliesCs env cats).1 = Csettings.flattenCats cats := by
  induction cats with
  | nil => rfl
  | cons hd tl ih =>
    obtain ⟨c, keys⟩ := hd
    simp only [Csettings.runAppliesCs] at h ⊢
    cases ha : Csettings.applyClusterSettings (env.applyCall c) with
    | error e => simp [ha] at h
    | ok u =>
      simp only [ha] at h ⊢
      simp only [Csettings.flattenCats, List.flatMap_cons] at ih ⊢
      rw [ih h]

/-- Parsing the desired mapping succeeds exactly on the bodies it read:
flattening the parsed categories is flattening the desired mapping. -/
theorem parseAll_flatten (l : List (String × Csettings.CatBody))
    (cats : List (String × List String))
    (h : Csettings.parseAll l = Except.ok cats) :
    Csettings.flattenCats cats = Csettings.flattenRes l := by
  induction l generalizing cats with
  | nil =>
    simp only [Csettings.parseAll] at h
    cases h
    rfl
  | cons hd tl ih =>
    obtain ⟨c, b⟩ := hd
    simp only [Csettings.parseAll] at h
    cases hb : b.parsed with
    | none => simp [hb] at h
    | some keys =>
      simp only [hb] at h
      cases hrest : Csettings.parseAll tl with
      | error e => simp [hrest] at h
      | ok r =>
        simp only [hrest] at h
        cases h
        simp only [Csettings.flattenCats, Csettings.flattenRes, List.flatMap_cons, hb,
          Option.getD_some]
        rw [← Csettings.flattenRes, ← ih r hrest]
        rfl

/-- Every ClusterSettings sync attempt either fails — leaving the applied list
untouched, phase Syncing or Error — or succeeds, ending Ready with the
flattened identifiers of the parsed categories recorded and the sync time
stamped. -/
theorem cs_sync_shape (env : Csettings.Env) (res : Csettings.Resource) :
    ((Csettings.Sync env res).status.appliedResources = res.status.appliedResources ∧
      ((Csettings.Sync env res).status.phase = Phase.syncing ∨
        (Csettings.Sync env res).status.phase = Phase.error) ∧
      ∃ e, (Csettings.Sync env res).result = Except.error e) ∨
    ((Csettings.Sync env res).result = Except.ok () ∧
      ∃ cats, Csettings.parseAll res.resources = Except.ok cats ∧
        (Csettings.runAppliesCs env cats).2 = none ∧
        (Csettings.Sync env res).status.phase = Phase.ready ∧
        (Csettings.Sync env res).status.appliedResources =
          (Csettings.runAppliesCs env cats).1 ∧
        (Csettings.Sync env res).status.lastSyncTime = some env.now ∧
        (Csettings.Sync env res).status.message =
          "Successfully synced " ++
            toString (Csettings.runAppliesCs env cats).1.length ++ " settings") := by
  simp only [Csettings.Sync]
  split
  · left; exact ⟨rfl, Or.inr rfl, _, rfl⟩
  · split
    · left; exact ⟨rfl, Or.inr rfl, _, rfl⟩
    · rename_i cats hp
      split
      · left; exact ⟨rfl, Or.inr rfl, _, rfl⟩
      · split
        · left; exact ⟨rfl, Or.inr rfl, _, rfl⟩
        · rename_i ha
          right
          exact ⟨rfl, cats, hp, ha, rfl, rfl, rfl, rfl⟩

/-- C1: after one fully successful sync attempt the status appliedResources
list equals the keys of the desired mapping exactly (for the cluster-settings
kind, the flattened category.settingPath identifiers), the phase is Ready, the
message summarizes the count applied, and lastSyncTime is the time of the
attempt; shown for the ISM kind and the cluster-settings kind. -/
theorem c1_convergence (envI : FlatEnv) (resI : FlatResource)
    (envC : Csettings.Env) (resC : Csettings.Resource)
    (h1 : (Ism.Sync envI resI).result = Except.ok ())
    (h2 : (Csettings.Sync envC resC).result = Except.ok ()) :
    (Ism.Sync envI resI).status.appliedResources = resI.resources.map Prod.fst ∧
    (Ism.Sync envI resI).status.phase = Phase.ready ∧
    (Ism.Sync envI resI).status.message =
      "Successfully synced " ++ toString resI.resources.length ++ " policies" ∧
    (Ism.Sync envI resI).status.lastSyncTime = some envI.now ∧
    (Csettings.Sync envC resC).status.appliedResources =
      Csettings.flattenRes resC.resources ∧
    (Csettings.Sync envC resC).status.phase = Phase.ready ∧
    (Csettings.Sync envC resC).status.message =
      "Successfully synced " ++
        toString (Csettings.flattenRes resC.resources).length ++ " settings" ∧
    (Csettings.Sync envC resC).status.lastSyncTime = some envC.now := by
  rcases ism_sync_shape envI resI with ⟨_, _, e, he⟩ | ⟨_, herr, hph, happ, hts, hmsg⟩
  · rw [h1] at he; exact Except.noConfusion he
  · rcases cs_sync_shape envC resC with ⟨_, _, e2, he2⟩ |
      ⟨_, cats, hp2, herr2, hph2, happ2, hts2, hmsg2⟩
    · rw [h2] at he2; exact Except.noConfusion he2
    · have hIsm := runApplies_ok_applied
        (fun n => Ism.applyISMPolicy (envI.applyCall n)) resI.resources herr
      have hCs := runAppliesCs_ok_applied envC cats herr2
      have hFl := parseAll_flatten resC.resources cats hp2
      refine ⟨?_, hph, ?_, hts, ?_, hph2, ?_, hts2⟩
      · rw [happ, hIsm]
      · rw [hmsg, hIsm, List.length_map]
      · rw [happ2, hCs, hFl]
      · rw [hmsg2, hCs, hFl]

/-- Witness for C1 at a concrete input: an ISM record desiring two policies
and a ClusterSettings record desiring one category of two settings, with a
healthy remote. -/
theorem c1_convergence_witness :
    ((Ism.Sync Fixtures.ismEnvOk Fixtures.ismResTwo).result = Except.ok () ∧
      (Csettings.Sync Fixtures.csEnvOk Fixtures.csResOneCat).result = Except.ok ()) ∧
    ((Ism.Sync Fixtures.ismEnvOk Fixtures.ismResTwo).status.appliedResources =
        Fixtures.ismResTwo.resources.map Prod.fst ∧
      (Ism.Sync Fixtures.ismEnvOk Fixtures.ismResTwo).status.phase = Phase.ready ∧
      (Ism.Sync Fixtures.ismEnvOk Fixtures.ismResTwo).status.message =
        "Successfully synced " ++ toString Fixtures.ismResTwo.resources.length
          ++ " policies" ∧
      (Ism.Sync Fixtures.ismEnvOk Fixtures.ismResTwo).status.lastSyncTime =
        some Fixtures.ismEnvOk.now ∧
      (Csettings.Sync Fixtures.csEnvOk Fixtures.csResOneCat).status.appliedResources =
        Csettings.flattenRes Fixtures.csResOneCat.resources ∧
      (Csettings.Sync Fixtures.csEnvOk Fixtures.csResOneCat).status.phase = Phase.ready ∧
      (Csettings.Sync Fixtures.csEnvOk Fixtures.csResOneCat).status.message =
        "Successfully synced " ++
          toString (Csettings.flattenRes Fixtures.csResOneCat.resources).length
          ++ " settings" ∧
      (Csettings.Sync Fixtures.csEnvOk Fixtures.csResOneCat).status.lastSyncTime =
        some Fixtures.csEnvOk.now) :=
  ⟨⟨rfl, rfl⟩, c1_convergence Fixtures.ismEnvOk Fixtures.ismResTwo
    Fixtures.csEnvOk Fixtures.csResOneCat rfl rfl⟩

/-- C2, counterexample: an ISM sync whose adapter delete fails with HTTP 500
aborts, but the error message is not written into the status message field and
the phase is left at Syncing, not set to Error — the propagation policy is not
uniform across the kinds (only connection failures, the dialect check and the
cluster-settings kind go through SetError). -/
theorem c2_error_counterexample :
    (Ism.Sync Fixtures.ismEnvAdapterFail Fixtures.ismResRemoveOnly).result =
      Except.error "OpenSearch API error: 500 Internal Server Error - boom" ∧
    (Ism.Sync Fixtures.ismEnvAdapterFail Fixtures.ismResRemoveOnly).status.phase =
      Phase.syncing ∧
    (Ism.Sync Fixtures.ismEnvAdapterFail Fixtures.ismResRemoveOnly).status.message =
      "Synchronizing with OpenSearch" :=
  ⟨rfl, rfl, rfl⟩

/-- C2, amended: every error aborts the sync attempt wholesale and no failed
attempt is recorded as Ready (the applied list is also left untouched); a
connection-resolution failure is written into the message with phase Error,
but an adapter delete/apply failure in the ISM and SLP kinds leaves the phase
at Syncing or Error rather than always Error. -/
theorem c2_error_propagation (envI : FlatEnv) (resI : FlatResource) (e1 : String)
    (envS : FlatEnv) (resS : FlatResource) (e2 : String)
    (envI2 : FlatEnv) (resI2 : FlatResource) (ec : String)
    (h1 : (Ism.Sync envI resI).result = Except.error e1)
    (h2 : (Slp.Sync envS resS).result = Except.error e2)
    (h3 : envI2.connect = Except.error ec) :
    (Ism.Sync envI resI).status.phase ≠ Phase.ready ∧
    (Ism.Sync envI resI).status.appliedResources = resI.status.appliedResources ∧
    (Slp.Sync envS resS).status.phase ≠ Phase.ready ∧
    (Slp.Sync envS resS).status.appliedResources = resS.status.appliedResources ∧
    (Ism.Sync envI2 resI2).status.phase = Phase.error ∧
    (Ism.Sync envI2 resI2).status.message =
      "failed to connect to OpenSearch: " ++ ec := by
  rcases ism_sync_shape envI resI with ⟨hap, hph, _, _⟩ | ⟨hok, _⟩
  · rcases slp_sync_shape envS resS with ⟨hap2, hph2, _, _⟩ | ⟨hok2, _⟩
    · refine ⟨?_, hap, ?_, hap2, ?_, ?_⟩
      · rcases hph with h | h <;> rw [h] <;> intro hh <;> exact Phase.noConfusion hh
      · rcases hph2 with h | h <;> rw [h] <;> intro hh <;> exact Phase.noConfusion hh
      · simp only [Ism.Sync, h3]; rfl
      · simp only [Ism.Sync, h3]; rfl
    · rw [h2] at hok2; exact Except.noConfusion hok2
  · rw [h1] at hok; exact Except.noConfusion hok

/-- Witness for C2's amended statement: the failing ISM delete, a failing SLP
apply and a failing connection resolution, at concrete inputs. -/
theorem c2_error_propagation_witness :
    ((Ism.Sync Fixtures.ismEnvAdapterFail Fixtures.ismResRemoveOnly).result =
        Except.error "OpenSearch API error: 500 Internal Server Error - boom" ∧
      (Slp.Sync Fixtures.slpEnvApplyFail Fixtures.slpResOne).result =
        Except.error "elasticsearch API error: 500 Internal Server Error - boom" ∧
      Fixtures.ismEnvConnFail.connect =
        Except.error "failed to get ECK cluster: not found") ∧
    ((Ism.Sync Fixtures.ismEnvAdapterFail Fixtures.ismResRemoveOnly).status.phase ≠
        Phase.ready ∧
      (Ism.Sync Fixtures.ismEnvAdapterFail Fixtures.ismResRemoveOnly).status.appliedResources =
        Fixtures.ismResRemoveOnly.status.appliedResources ∧
      (Slp.Sync Fixtures.slpEnvApplyFail Fixtures.slpResOne).status.phase ≠ Phase.ready ∧
      (Slp.Sync Fixtures.slpEnvApplyFail Fixtures.slpResOne).status.appliedResources =
        Fixtures.slpResOne.status.appliedResources ∧
      (Ism.Sync Fixtures.ismEnvConnFail Fixtures.ismResRemoveOnly).status.phase =
        Phase.error ∧
      (Ism.Sync Fixtures.ismEnvConnFail Fixtures.ismResRemoveOnly).status.message =
        "failed to connect to OpenSearch: " ++ "failed to get ECK cluster: not found") :=
  ⟨⟨rfl, rfl, rfl⟩, c2_error_propagation Fixtures.ismEnvAdapterFail
    Fixtures.ismResRemoveOnly _ Fixtures.slpEnvApplyFail Fixtures.slpResOne _
    Fixtures.ismEnvConnFail Fixtures.ismResRemoveOnly _ rfl rfl rfl⟩

/-- C3: evaluation at the failing input. A ClusterSettings record marked for
deletion, tracking one applied setting, whose reset call answers HTTP 500: the
deletion sync fails — yet the controller's deletion branch removes the
finalizer anyway (the error assigned from `Sync` is never tested and is
overwritten before the branch returns nil), so the record is finalized despite
the failed removal, contradicting the claim (and section 4.4 of the spec). -/
theorem c3_finalizer_removed_despite_failed_deletion :
    Csettings.SyncDeleted Fixtures.csEnvResetFail Fixtures.csResTracked =
      Except.error "elasticsearch API error: 500 Internal Server Error - boom" ∧
    Csettings.ReconcileDeletion
        (Csettings.SyncDeleted Fixtures.csEnvResetFail Fixtures.csResTracked)
        true none =
      { finalizerRemoved := true, err := none } ∧
    (∀ syncOutcome : Except String Unit, ∀ updateErr : Option String,
      (Csettings.ReconcileDeletion syncOutcome true updateErr).finalizerRemoved = true) :=
  ⟨rfl, rfl, fun _ _ => rfl⟩

/-- C4: a sync attempt that fails at any step leaves the status
appliedResources exactly as it was before the attempt; shown for the ISM kind
and the cluster-settings kind (where even the failing steps that do write
phase/message through SetError never touch the applied list). -/
theorem c4_applied_frame (envI : FlatEnv) (resI : FlatResource) (e1 : String)
    (envC : Csettings.Env) (resC : Csettings.Resource) (e2 : String)
    (h1 : (Ism.Sync envI resI).result = Except.error e1)
    (h2 : (Csettings.Sync envC resC).result = Except.error e2) :
    (Ism.Sync envI resI).status.appliedResources = resI.status.appliedResources ∧
    (Csettings.Sync envC resC).status.appliedResources =
      resC.status.appliedResources := by
  rcases ism_sync_shape envI resI with ⟨hap, _, _⟩ | ⟨hok, _⟩
  · rcases cs_sync_shape envC resC with ⟨hap2, _, _⟩ | ⟨hok2, _⟩
    · exact ⟨hap, hap2⟩
    · rw [h2] at hok2; exact Except.noConfusion hok2
  · rw [h1] at hok; exact Except.noConfusion hok

/-- Witness for C4: a failing ISM delete (after which the remote delete had
already been issued) and a failing ClusterSettings reset, at concrete inputs;
both leave the applied list exactly as before the attempt. -/
theorem c4_applied_frame_witness :
    ((Ism.Sync Fixtures.ismEnvAdapterFail Fixtures.ismResRemoveOnly).result =
        Except.error "OpenSearch API error: 500 Internal Server Error - boom" ∧
      (Csettings.Sync Fixtures.csEnvResetFail Fixtures.csResTracked).result =
        Except.error
          "failed to reset cluster settings: elasticsearch API error: 500 Internal Server Error - boom") ∧
    ((Ism.Sync Fixtures.ismEnvAdapterFail Fixtures.ismResRemoveOnly).status.appliedResources =
        Fixtures.ismResRemoveOnly.status.appliedResources ∧
      (Csettings.Sync Fixtures.csEnvResetFail Fixtures.csResTracked).status.appliedResources =
        Fixtures.csResTracked.status.appliedResources) :=
  ⟨⟨rfl, rfl⟩, c4_applied_frame Fixtures.ismEnvAdapterFail Fixtures.ismResRemoveOnly _
    Fixtures.csEnvResetFail Fixtures.csResTracked _ rfl rfl⟩

/-- C5: an ISM sync attempt whose resolved connection has the elasticsearch
dialect always fails with the dialect-mismatch error, the phase is Error with
that message, and no remote call at all (in particular no apply) is issued. -/
theorem c5_dialect_gating (env : FlatEnv) (res : FlatResource)
    (conn : Pools.Connection)
    (hc : env.connect = Except.ok conn)
    (hd : conn.clusterType = "elasticsearch") :
    (Ism.Sync env res).result = Except.error Ism.incompatibleClusterMsg ∧
    (Ism.Sync env res).status.phase = Phase.error ∧
    (Ism.Sync env res).status.message = Ism.incompatibleClusterMsg ∧
    (Ism.Sync env res).calls = [] := by
  simp only [Ism.Sync, hc, hd, beq_self_eq_true, if_true]
  simp [Ism.SetError, Ism.SetSyncing]

/-- Witness for C5: a concrete ISM record against a concrete
elasticsearch-dialect connection. -/
theorem c5_dialect_gating_witness :
    (Fixtures.ismEnvWrongDialect.connect = Except.ok Fixtures.connEs ∧
      Fixtures.connEs.clusterType = "elasticsearch") ∧
    ((Ism.Sync Fixtures.ismEnvWrongDialect Fixtures.ismResTwo).result =
        Except.error Ism.incompatibleClusterMsg ∧
      (Ism.Sync Fixtures.ismEnvWrongDialect Fixtures.ismResTwo).status.phase =
        Phase.error ∧
      (Ism.Sync Fixtures.ismEnvWrongDialect Fixtures.ismResTwo).status.message =
        Ism.incompatibleClusterMsg ∧
      (Ism.Sync Fixtures.ismEnvWrongDialect Fixtures.ismResTwo).calls = []) :=
  ⟨⟨rfl, rfl⟩, c5_dialect_gating Fixtures.ismEnvWrongDialect Fixtures.ismResTwo
    Fixtures.connEs rfl rfl⟩

/-- C6: for every adapter kind, deleting a name the remote answers HTTP 404
for returns no error — the not-found response is swallowed as success. The
index-lifecycle-policy delete is spec-modelled (its sync file is not among the
provided sources); the other five are embedded from their sources. -/
theorem c6_not_found_is_success (st bd : String) :
    Ism.deleteISMPolicy
      (CallResult.response { statusCode := 404, status := st, body := bd }) =
        Except.ok () ∧
    Slp.deleteSnapshotLifecyclePolicy
      (CallResult.response { statusCode := 404, status := st, body := bd }) =
        Except.ok () ∧
    Itpl.deleteIndexTemplate
      (CallResult.response { statusCode := 404, status := st, body := bd }) =
        Except.ok () ∧
    Srepo.deleteSnapshotRepository
      (CallResult.response { statusCode := 404, status := st, body := bd }) =
        Except.ok () ∧
    Csettings.resetClusterSettings
      (CallResult.response { statusCode := 404, status := st, body := bd }) =
        Except.ok () ∧
    Ilm.deleteILMPolicy
      (CallResult.response { statusCode := 404, status := st, body := bd }) =
        Except.ok () :=
  ⟨rfl, rfl, rfl, rfl, rfl, rfl⟩

/-- A map assignment leaves exactly one entry for the assigned key and does
not change the entry count of any other key. -/
theorem storeCountKey_storeSet {α : Type} (store : List (String × α))
    (key k : String) (v : α) :
    Pools.storeCountKey (Pools.storeSet store key v) k =
      if k = key then 1 else Pools.storeCountKey store k := by
  unfold Pools.storeSet Pools.storeCountKey
  by_cases hk : k = key
  · subst hk
    simp only [if_true, List.filter_cons, beq_self_eq_true, if_pos, List.length_cons,
      List.filter_filter]
    have hz : (store.filter (fun p => p.1 == k && !(p.1 == k))).length = 0 := by
      have : (store.filter (fun p => p.1 == k && !(p.1 == k))) = [] := by
        apply List.filter_eq_nil_iff.mpr
        intro a _
        simp
      rw [this]
      rfl
    omega
  · have hbk : (key == k) = false := by
      simp only [beq_eq_false_iff_ne, ne_eq]
      intro hh
      exact hk hh.symm
    simp only [if_neg hk, List.filter_cons, hbk, Bool.false_eq_true, if_false,
      List.filter_filter]
    congr 1
    apply List.filter_congr
    intro a _
    cases haa : a.1 == k with
    | false => simp
    | true =>
      have : a.1 = k := eq_of_beq haa
      subst this
      have : (a.1 == key) = false := by
        simp only [beq_eq_false_iff_ne, ne_eq]
        exact hk
      simp [this]

/-- One worker step preserves the at-most-one-entry-per-key invariant of the
shared pool. -/
theorem threadStep_count (key : String) (sh : Registry.Shared)
    (th : Registry.Thread)
    (hinv : ∀ k, Pools.storeCountKey sh.store k ≤ 1) :
    ∀ k, Pools.storeCountKey (Registry.threadStep key sh th).2.store k ≤ 1 := by
  intro k
  unfold Registry.threadStep
  split
  · split
    · exact hinv k
    · exact hinv k
  · split
    · exact hinv k
    · split
      · show Pools.storeCountKey (Pools.storeSet sh.store key th.obj) k ≤ 1
        rw [storeCountKey_storeSet]
        split
        · exact le_refl 1
        · exact hinv k
      · exact hinv k

/-- A scheduler step preserves the invariant. -/
theorem sysStep_count (key : String) (s : Registry.Sys) (who : Bool)
    (hinv : ∀ k, Pools.storeCountKey s.shared.store k ≤ 1) :
    ∀ k, Pools.storeCountKey (Registry.sysStep key s who).shared.store k ≤ 1 := by
  intro k
  unfold Registry.sysStep
  cases who with
  | true =>
    simp only [if_true]
    exact threadStep_count key s.shared s.t1 hinv k
  | false =>
    simp only [Bool.false_eq_true, if_false]
    exact threadStep_count key s.shared s.t2 hinv k

/-- Any interleaving preserves the invariant from any invariant-satisfying
start state. -/
theorem foldl_sysStep_count (key : String) (sched : List Bool) :
    ∀ s : Registry.Sys, (∀ k, Pools.storeCountKey s.shared.store k ≤ 1) →
      ∀ k, Pools.storeCountKey
        (sched.foldl (Registry.sysStep key) s).shared.store k ≤ 1 := by
  induction sched with
  | nil => intro s h k; exact h k
  | cons b rest ih =>
    intro s h k
    exact ih (Registry.sysStep key s b) (sysStep_count key s b h) k

/-- C7, counterexample: under the interleaving where both workers miss in the
pool before either constructs, both construct a connection (two constructions,
where a creation path that re-checked existence under the exclusive lock would
construct at most once from an empty pool); each worker returns its own
object and the later Set overwrites the earlier, so after both finish the pool
retains the second object only. -/
theorem c7_registry_counterexample :
    (Registry.run "default_demo" [true, false, true, false]).shared.built = 2 ∧
    (Registry.run "default_demo"
      [true, false, true, false, true, false]).shared.built = 2 ∧
    (Registry.run "default_demo" [true, false, true, false, true, false]).t1.ret =
      some 0 ∧
    (Registry.run "default_demo" [true, false, true, false, true, false]).t2.ret =
      some 1 ∧
    (Registry.run "default_demo" [true, false, true, false, true, false]).shared.store =
      [("default_demo", 1)] :=
  ⟨rfl, rfl, rfl, rfl, rfl⟩

/-- C7, amended: the registry retains at most one connection object per key
under every interleaving — because the exclusive-lock Set overwrites the entry
for the key — while the creation path takes no re-check before constructing:
there is an interleaving of two `getOrCreate` calls for the same key in which
two connection objects are constructed. -/
theorem c7_registry_amended (key : String) (sched : List Bool) (k : String) :
    Pools.storeCountKey (Registry.run key sched).shared.store k ≤ 1 ∧
    (Registry.run "default_demo" [true, false, true, false]).shared.built = 2 := by
  refine ⟨?_, rfl⟩
  exact foldl_sysStep_count key sched Registry.initSys
    (fun _ => Nat.zero_le 1) k

/-- C8: with an explicit override the detector returns the override verbatim
as the dialect, still performing exactly one cluster-info call solely to
extract the version; without an override, exactly one cluster-info call is
made and the dialect is opensearch if and only if the version.distribution
field literally equals "opensearch", elasticsearch otherwise. -/
theorem c8_dialect_detection (env : Globals.DetectEnv) (ov : String)
    (r : EsResponse) (info : Globals.InfoBody)
    (hov : ov ≠ "")
    (hc : env.infoCall = CallResult.response r)
    (hr : r.statusCode ≤ 299)
    (hp : env.parsed = some info) :
    (Globals.detectClusterType env ov).2 = Except.ok (ov, info.number) ∧
    (Globals.detectClusterType env ov).1 = 1 ∧
    (Globals.detectClusterType env "").1 = 1 ∧
    ((Globals.detectClusterType env "").2 =
        Except.ok ("opensearch", info.number) ↔
      info.distribution = "opensearch") ∧
    (info.distribution ≠ "opensearch" →
      (Globals.detectClusterType env "").2 =
        Except.ok ("elasticsearch", info.number)) := by
  have hno : ¬(r.statusCode > 299) := by omega
  have hbne : (ov != "") = true := bne_iff_ne.mpr hov
  have hempty : (("" : String) != "") = false := by decide
  unfold Globals.detectClusterType
  rw [if_pos hbne]
  simp only [hempty, Bool.false_eq_true, if_false, hc, hp, if_neg hno]
  refine ⟨by trivial, by trivial, by trivial, ?_, ?_⟩
  · by_cases hdist : info.distribution = "opensearch"
    · simp [hdist]
    · have : (info.distribution == "opensearch") = false := by
        simp only [beq_eq_false_iff_ne, ne_eq]; exact hdist
      simp [this, hdist]
  · intro hdist
    have : (info.distribution == "opensearch") = false := by
      simp only [beq_eq_false_iff_ne, ne_eq]; exact hdist
    simp [this]

/-- Witness for C8: an override "elasticsearch" against a healthy OpenSearch
probe response. -/
theorem c8_dialect_detection_witness :
    (("elasticsearch" : String) ≠ "" ∧
      Fixtures.detectEnvOs.infoCall =
        CallResult.response { statusCode := 200, status := "200 OK", body := "info" } ∧
      (200 : Nat) ≤ 299 ∧
      Fixtures.detectEnvOs.parsed =
        some { distribution := "opensearch", number := "2.11.0" }) ∧
    ((Globals.detectClusterType Fixtures.detectEnvOs "elasticsearch").2 =
        Except.ok ("elasticsearch", "2.11.0") ∧
      (Globals.detectClusterType Fixtures.detectEnvOs "elasticsearch").1 = 1 ∧
      (Globals.detectClusterType Fixtures.detectEnvOs "").1 = 1 ∧
      ((Globals.detectClusterType Fixtures.detectEnvOs "").2 =
          Except.ok ("opensearch", "2.11.0") ↔
        ("opensearch" : String) = "opensearch") ∧
      (("opensearch" : String) ≠ "opensearch" →
        (Globals.detectClusterType Fixtures.detectEnvOs "").2 =
          Except.ok ("elasticsearch", "2.11.0"))) :=
  ⟨⟨by decide, rfl, by decide, rfl⟩,
    c8_dialect_detection Fixtures.detectEnvOs "elasticsearch"
      { statusCode := 200, status := "200 OK", body := "info" }
      { distribution := "opensearch", number := "2.11.0" }
      (by decide) rfl (by decide) rfl⟩

/-- C9, counterexample: a record whose interval "tenseconds" is unparseable.
The reconcile aborts before any sync with no requeue-after scheduled (so the
ten-second default does not apply to an unparseable interval — only to an
unset one), and the status is left untouched: the phase stays Pending, it is
not set to Error. -/
theorem c9_interval_counterexample :
    Controller.ParseDuration Fixtures.ismResBadInterval.syncInterval = none ∧
    (Controller.ReconcileSchedule Fixtures.ismEnvOk
      Fixtures.ismResBadInterval).requeueAfter = none ∧
    (Controller.ReconcileSchedule Fixtures.ismEnvOk
      Fixtures.ismResBadInterval).syncAttempted = false ∧
    (Controller.ReconcileSchedule Fixtures.ismEnvOk
      Fixtures.ismResBadInterval).status.phase = Phase.pending ∧
    Controller.ParseDuration Controller.DefaultSyncInterval = some 10000000000 :=
  ⟨rfl, rfl, rfl, rfl, rfl⟩

/-- C9, amended: the next sync is scheduled after the record's configured
resync interval, the ten-second default applying only when the interval is
unset; an unparseable interval aborts the reconcile before any sync attempt —
the parse error is returned to the scheduler, no interval-based requeue is
scheduled and the record's status (in particular its phase) is untouched. -/
theorem c9_resync_scheduling (env : FlatEnv)
    (res1 res2 res3 : FlatResource) (d : Nat)
    (h1 : res1.syncInterval = "")
    (h2 : Controller.ParseDuration res2.syncInterval = none)
    (h2b : res2.syncInterval ≠ "")
    (h3 : Controller.ParseDuration res3.syncInterval = some d) :
    (Controller.ReconcileSchedule env res1).requeueAfter = some 10000000000 ∧
    (Controller.ReconcileSchedule env res2).requeueAfter = none ∧
    (Controller.ReconcileSchedule env res2).err =
      some ("time: invalid duration " ++ res2.syncInterval) ∧
    (Controller.ReconcileSchedule env res2).syncAttempted = false ∧
    (Controller.ReconcileSchedule env res2).status = res2.status ∧
    (Controller.ReconcileSchedule env res3).requeueAfter = some d := by
  have h3b : res3.syncInterval ≠ "" := by
    intro hcontra
    rw [hcontra] at h3
    exact Option.noConfusion h3
  have hb1 : (res1.syncInterval == "") = true := beq_iff_eq.mpr h1
  have hb2 : (res2.syncInterval == "") = false := by
    simp only [beq_eq_false_iff_ne, ne_eq]; exact h2b
  have hb3 : (res3.syncInterval == "") = false := by
    simp only [beq_eq_false_iff_ne, ne_eq]; exact h3b
  have h10 : Controller.ParseDuration Controller.DefaultSyncInterval =
      some 10000000000 := rfl
  unfold Controller.ReconcileSchedule
  rw [hb1, hb2, hb3]
  simp only [if_true, Bool.false_eq_true, if_false, h2, h3, h10]
  refine ⟨?_, by trivial, by trivial, by trivial, by trivial, ?_⟩
  · split <;> rfl
  · split <;> rfl

/-- Witness for C9's amended statement at concrete inputs: an unset interval,
the unparseable "tenseconds", and a well-formed "30s". -/
theorem c9_resync_scheduling_witness :
    (Fixtures.ismResRemoveOnly.syncInterval = "" ∧
      Controller.ParseDuration Fixtures.ismResBadInterval.syncInterval = none ∧
      Fixtures.ismResBadInterval.syncInterval ≠ "" ∧
      Controller.ParseDuration Fixtures.ismResInterval30s.syncInterval =
        some 30000000000) ∧
    ((Controller.ReconcileSchedule Fixtures.ismEnvOk
        Fixtures.ismResRemoveOnly).requeueAfter = some 10000000000 ∧
      (Controller.ReconcileSchedule Fixtures.ismEnvOk
        Fixtures.ismResBadInterval).requeueAfter = none ∧
      (Controller.ReconcileSchedule Fixtures.ismEnvOk
        Fixtures.ismResBadInterval).err =
          some ("time: invalid duration " ++ Fixtures.ismResBadInterval.syncInterval) ∧
      (Controller.ReconcileSchedule Fixtures.ismEnvOk
        Fixtures.ismResBadInterval).syncAttempted = false ∧
      (Controller.ReconcileSchedule Fixtures.ismEnvOk
        Fixtures.ismResBadInterval).status = Fixtures.ismResBadInterval.status ∧
      (Controller.ReconcileSchedule Fixtures.ismEnvOk
        Fixtures.ismResInterval30s).requeueAfter = some 30000000000) :=
  ⟨⟨rfl, rfl, by decide, rfl⟩,
    c9_resync_scheduling Fixtures.ismEnvOk Fixtures.ismResRemoveOnly
      Fixtures.ismResBadInterval Fixtures.ismResInterval30s 30000000000
      rfl rfl (by decide) rfl⟩

/-- C10: the connection-cache key is built solely from the selector's
namespace (defaulted to the CR namespace) and name — no endpoint, credential,
CA or dialect-override field enters it — and a pool hit returns the cached
connection no matter what the selector now says: two records whose selectors
share namespace and name resolve to the same cached connection even with
different endpoints or credentials, and after the connection fields change the
previously cached connection keeps being reused. -/
theorem c10_cache_key (cr : String) (s1 s2 : ResourceSelector)
    (pool : List (String × Pools.Connection)) (c : Pools.Connection)
    (create : ResourceSelector → Except String Pools.Connection)
    (hn : s1.name = s2.name) (hns : s1.nspace = s2.nspace)
    (hhit : Pools.storeGet pool (Globals.clusterKey cr s1) = some c) :
    Globals.clusterKey cr s1 = Globals.clusterKey cr s2 ∧
    Globals.GetOrCreateElasticsearchConnection pool (Globals.clusterKey cr s1)
      s1 create = Except.ok (c, pool) ∧
    Globals.GetOrCreateElasticsearchConnection pool (Globals.clusterKey cr s2)
      s2 create = Except.ok (c, pool) := by
  have hkey : Globals.clusterKey cr s1 = Globals.clusterKey cr s2 := by
    unfold Globals.clusterKey
    rw [hn, hns]
  refine ⟨hkey, ?_, ?_⟩
  · unfold Globals.GetOrCreateElasticsearchConnection
    rw [hhit]
  · unfold Globals.GetOrCreateElasticsearchConnection
    rw [← hkey, hhit]

/-- Witness for C10: two manual selectors sharing namespace and name but
differing in endpoint, username and password reference, against a pool that
caches a connection under their common key. -/
theorem c10_cache_key_witness :
    (Fixtures.selManualA.name = Fixtures.selManualB.name ∧
      Fixtures.selManualA.nspace = Fixtures.selManualB.nspace ∧
      Fixtures.selManualA.endpoint ≠ Fixtures.selManualB.endpoint ∧
      Pools.storeGet Fixtures.poolWithDemo
        (Globals.clusterKey "default" Fixtures.selManualA) = some Fixtures.connOs) ∧
    (Globals.clusterKey "default" Fixtures.selManualA =
        Globals.clusterKey "default" Fixtures.selManualB ∧
      Globals.GetOrCreateElasticsearchConnection Fixtures.poolWithDemo
        (Globals.clusterKey "default" Fixtures.selManualA) Fixtures.selManualA
        (fun _ => Except.error "must not be called") =
          Except.ok (Fixtures.connOs, Fixtures.poolWithDemo) ∧
      Globals.GetOrCreateElasticsearchConnection Fixtures.poolWithDemo
        (Globals.clusterKey "default" Fixtures.selManualB) Fixtures.selManualB
        (fun _ => Except.error "must not be called") =
          Except.ok (Fixtures.connOs, Fixtures.poolWithDemo)) :=
  ⟨⟨rfl, rfl, by decide, rfl⟩,
    c10_cache_key "default" Fixtures.selManualA Fixtures.selManualB
      Fixtures.poolWithDemo Fixtures.connOs
      (fun _ => Except.error "must not be called") rfl rfl rfl⟩
